import Mathlib

/-!
Verification of `mamyzabawki_api.py`: a Flask service that generates HTML
product descriptions via the OpenAI chat-completion API, with a synchronous
single-item endpoint and an asynchronous batch mode fetching product records
from the Shoper REST API and writing a spreadsheet.

Strings are modelled as Lean `String` / `List Char`; external HTTP calls
(OpenAI, Shoper) are modelled as oracles supplied as function arguments.
-/

namespace Mamyzabawki

/-! ## Python string primitives -/

/-- Python `str.strip()` whitespace set, restricted to the ASCII whitespace
characters (the inputs of interest contain no exotic Unicode spaces). -/
def pyIsSpace (c : Char) : Bool :=
  c == ' ' || c == '\t' || c == '\n' || c == '\x0b' || c == '\x0c' || c == '\r'

/-- Drop trailing characters satisfying `p` (right-hand side of Python `strip`). -/
def rstripWith (p : Char → Bool) (l : List Char) : List Char :=
  (l.reverse.dropWhile p).reverse

/-- Python `s.strip()` on a character list. -/
def pyStripL (l : List Char) : List Char :=
  rstripWith pyIsSpace (l.dropWhile pyIsSpace)

/-- Python `s.strip()`. -/
def pyStrip (s : String) : String :=
  String.mk (pyStripL s.data)

/-- The backtick character test, for Python `s.strip("`")`. -/
def isTick (c : Char) : Bool := c == '`'

/-- Python `s.strip("`")` on a character list: removes all leading and
trailing backtick characters. -/
def stripTicksL (l : List Char) : List Char :=
  rstripWith isTick (l.dropWhile isTick)

/-- The pattern removed by `content.replace("html", "")`. -/
def htmlPat : List Char := "html".data

/-- Whether the substring `"html"` occurs anywhere in `l`. -/
def htmlOccurs : List Char → Bool
  | [] => false
  | c :: rest => htmlPat.isPrefixOf (c :: rest) || htmlOccurs rest

/-- Fuelled worker for Python `s.replace("html", "")`: scans left to right,
removing each non-overlapping occurrence of `"html"`.  One unit of fuel per
consumed character, so `fuel = l.length` always suffices. -/
def removeHtmlAux : Nat → List Char → List Char
  | 0, s => s
  | _ + 1, [] => []
  | fuel + 1, c :: rest =>
    if htmlPat.isPrefixOf (c :: rest) then removeHtmlAux fuel (rest.drop 3)
    else c :: removeHtmlAux fuel rest

/-- Python `s.replace("html", "")` on a character list. -/
def removeHtmlL (l : List Char) : List Char :=
  removeHtmlAux l.length l

/-- Python `", ".join(parts)`-style join. -/
def pyJoin (sep : String) : List String → String
  | [] => ""
  | [x] => x
  | x :: y :: ys => x ++ sep ++ pyJoin sep (y :: ys)

/-- Python truthiness `if s:` for a string, i.e. non-emptiness: `s or d`
yields `s` when `s` is non-empty and `d` otherwise. -/
def pyOr (s d : String) : String :=
  if s = "" then d else s

/-! ## Completion client post-processing (`_call_openai`, lines 66–75)

```
content = data.get("choices", [{}])[0].get("message", {}).get("content", "").strip()
if content.startswith("```"):
    content = content.strip("`").replace("html", "").strip()
```
-/

/-- The code-fence handling applied to the (already stripped) response text,
as a list transformation: if it begins with a fence marker, strip all boundary
backticks, delete every occurrence of `"html"`, and trim whitespace. -/
def postProcessL (l : List Char) : List Char :=
  if "```".data.isPrefixOf l then pyStripL (removeHtmlL (stripTicksL l)) else l

/-- The code-fence handling of `_call_openai` (lines 73–74):
`content.strip("`").replace("html", "").strip()`, applied only when
`content.startswith("```")`. -/
def postProcess (content : String) : String :=
  String.mk (postProcessL content.data)

/-- Full extraction of the response text from a 200 response: strip, then
apply the fence handling. -/
def extract_content (raw : String) : String :=
  postProcess (pyStrip raw)

/-- Modelled from the spec: the claimed post-processing — remove the leading
fence marker, any leftover `"html"` language tag directly after it, the
trailing fence marker, and trim whitespace, leaving the rest of the text
unchanged.  Used only to compare against `postProcess`. -/
def spec_strip_fence (c : String) : String :=
  let l₁ := if "```".data.isPrefixOf c.data then c.data.drop 3 else c.data
  let l₂ := if htmlPat.isPrefixOf l₁ then l₁.drop 4 else l₁
  let l₃ := if "```".data.reverse.isPrefixOf l₂.reverse then (l₂.reverse.drop 3).reverse else l₂
  String.mk (pyStripL l₃)

/-! ## Attribute serialization (`_build_prompt`, lines 110–112)

```
attrs_str = ", ".join(
    f"{a.get('name')}: {a.get('value')}" for a in attributes if a.get("value")
)
```
-/

/-- A product attribute as a JSON object with optional `name` / `value`
string fields (`a.get(...)` returns `None` when the key is absent). -/
structure Attr where
  name : Option String
  value : Option String
  deriving DecidableEq

/-- Python truthiness of `a.get(...)` for a string-valued field: `None` and
the empty string are falsy. -/
def pyTruthy : Option String → Bool
  | none => false
  | some v => !(v == "")

/-- How a Python f-string renders an optional string: `None` prints as the
text `"None"`. -/
def pyShowOpt : Option String → String
  | none => "None"
  | some v => v

/-- The f-string `f"{a.get('name')}: {a.get('value')}"`. -/
def fmt_attr (a : Attr) : String :=
  pyShowOpt a.name ++ ": " ++ pyShowOpt a.value

/-- The serialized attribute string used in the prompt. -/
def attrs_str (attributes : List Attr) : String :=
  pyJoin ", " ((attributes.filter fun a => pyTruthy a.value).map fmt_attr)

/-- Whether some attribute in the list has a non-empty value. -/
def spec_has_nonempty (l : List Attr) : Bool :=
  l.any fun a => pyTruthy a.value

/-- Modelled from the spec: attributes with an empty value are excluded;
attributes with a non-empty value appear as `"name: value"` joined by `", "`
in input order.  Used only to compare against `attrs_str`. -/
def spec_attrs_str : List Attr → String
  | [] => ""
  | a :: rest =>
    if pyTruthy a.value then
      if spec_has_nonempty rest then fmt_attr a ++ ", " ++ spec_attrs_str rest
      else fmt_attr a
    else spec_attrs_str rest

/-! ## Prompt builder (`_build_prompt`, lines 108–160) -/

/-- The fixed instructional part of the prompt template (the f-string body up
to the first interpolation). -/
def promptTemplateHead : String :=
"
Stwórz kompletny opis HTML produktu w następującym układzie (bez ```):

<div class=\"new-desc-wrapper\">

<div class=\"new-desc-data-wrapper\">
<h3>[nazwa produktu i jego zastosowanie]</h3>
<p>[opis produktu w 4–6 zdaniach, długość ok. 1000–1500 znaków]</p>
</div>

<div class=\"new-desc-listing-wrapper\">
<p>Najważniejsze cechy</p>
<ul class=\"new-desc-custom-list\">
<li>[cecha 1]</li>
<li>[cecha 2]</li>
<li>[cecha 3]</li>
<li>[cecha 4]</li>
<li>[cecha 5]</li>
</ul>
</div>

<div class=\"attr-table-data\">
<h4>Parametry</h4>
<div class=\"attr-table-wrapper\">
<div class=\"attr-table-grey\"><div>[nazwa parametru]</div><div>[wartość]</div></div>
<div class=\"attr-table-normal\"><div>[nazwa parametru]</div><div>[wartość]</div></div>
[... kolejne parametry naprzemiennie grey/normal ...]
</div>
</div>

</div>

Zasady:
- Generuj czysty HTML, bez ``` ani znaczników języka.
- Sekcja <p> z opisem powinna mieć ok. 1000–1500 znaków.
- Lista cech: 4–6 naturalnych, konkretnych punktów.
- Jeśli atrybuty są puste, wyodrębnij parametry techniczne z opisu.
- Nie dodawaj stylów inline, komentarzy ani innych elementów.
- Język polski, profesjonalny, przyjazny, techniczny, bez przesady marketingowej.

Dane produktu:
Nazwa: "

/-- `_build_prompt(name, description, attributes, producer_name, image_url)`:
the template with the product data interpolated at the end.  The batch path
calls it without `image_url`, i.e. with the default `""`. -/
def build_prompt (name description : String) (attributes : List Attr)
    (producer_name image_url : String) : String :=
  promptTemplateHead ++ name
    ++ "\nOpis: " ++ description
    ++ "\nProducent: " ++ producer_name
    ++ "\nAtrybuty: " ++ attrs_str attributes
    ++ "\nZdjęcie: " ++ image_url
    ++ "\n"

/-! ## Completion client (`_call_openai`, lines 35–83) -/

/-- `MAX_RETRIES = 3` (line 22). -/
def MAX_RETRIES : Nat := 3

/-- `RETRY_DELAY = 2` (line 23). -/
def RETRY_DELAY : Nat := 2

/-- The fixed system message sent with every completion request. -/
def systemContent : String :=
  "Jesteś ekspertem od tworzenia profesjonalnych, technicznych opisów produktów. " ++
  "Zawsze zwracasz czysty kod HTML zgodny z wymaganym układem, bez znaczników ```."

/-- The JSON body of one chat-completion request (lines 48–62).  The
`temperature: 0.3` float field is a fixed constant and is omitted from the
model; `max_tokens` is kept. -/
structure RequestBody where
  model : String
  systemMsg : String
  userMsg : String
  maxTokens : Nat
  deriving DecidableEq

/-- The body `_call_openai` builds for a given configured model and prompt. -/
def mkChatBody (cfgModel prompt : String) : RequestBody :=
  ⟨cfgModel, systemContent, prompt, 1500⟩

/-- What one attempt of `requests.post` observes: either the call raises, or
an HTTP response arrives with a status code and (for 200) the extracted
`choices[0].message.content` string. -/
inductive AttemptOutcome where
  | exn (msg : String)
  | response (code : Nat) (content : String)
  deriving DecidableEq

/-- Whether an attempt outcome takes the success (`status_code == 200`) path. -/
def isSuccess : AttemptOutcome → Bool
  | .response code _ => code == 200
  | .exn _ => false

/-- The result of `_call_openai`: a returned string, or a raised exception's
message. -/
inductive CallResult where
  | ok (text : String)
  | error (msg : String)
  deriving DecidableEq

/-- Observable side effects of `_call_openai`: outbound request attempts and
`time.sleep` calls. -/
inductive NetEvent where
  | attempt (body : RequestBody)
  | sleep (seconds : Nat)
  deriving DecidableEq

/-- The retry loop (`for attempt in range(MAX_RETRIES)`, lines 46–81): on a
200 response, return the post-processed content; on any other status or an
exception, sleep `RETRY_DELAY` seconds and move to the next attempt.  Returns
the result together with the trace of network events. -/
def runAttempts (cfgModel prompt : String) (oracle : Nat → AttemptOutcome) :
    List Nat → CallResult × List NetEvent
  | [] => (.error "Nie udało się uzyskać odpowiedzi z OpenAI po 3 próbach", [])
  | a :: rest =>
    match oracle a with
    | .response code content =>
      if code == 200 then
        (.ok (extract_content content), [.attempt (mkChatBody cfgModel prompt)])
      else
        let t := runAttempts cfgModel prompt oracle rest
        (t.1, .attempt (mkChatBody cfgModel prompt) :: .sleep RETRY_DELAY :: t.2)
    | .exn _ =>
      let t := runAttempts cfgModel prompt oracle rest
      (t.1, .attempt (mkChatBody cfgModel prompt) :: .sleep RETRY_DELAY :: t.2)

/-- `_call_openai(prompt)`: raises immediately when the (stripped) API key is
empty, otherwise runs the bounded retry loop.  `apiKey` models the module
constant `OPENAI_API_KEY`, `cfgModel` the module constant `OPENAI_MODEL`, and
`oracle` the behaviour of the network on each attempt. -/
def call_openai (apiKey cfgModel : String) (oracle : Nat → AttemptOutcome)
    (prompt : String) : CallResult × List NetEvent :=
  if apiKey == "" then (.error "Brak OPENAI_API_KEY w środowisku", [])
  else runAttempts cfgModel prompt oracle (List.range MAX_RETRIES)

/-! ## Batch orchestrator (`process_task`, lines 191–241)

`_fetch_shoper_products` (lines 86–105) authenticates once (a non-200 raises
`"Błąd logowania do Shopera"`), then issues one GET per identifier, keeping
the parsed record on a 200 and skipping the identifier otherwise — i.e. a
`filterMap` over the identifier list.
-/

/-- The fields `process_task` extracts from one fetched product record
(lines 211–215), after `_norm` normalization. -/
structure GoodRec where
  pid : String
  name : String
  description : String
  producer : String
  attributes : List Attr
  deriving DecidableEq

/-- A fetched product record as the per-record loop body sees it.  `good`
carries the extracted fields.  `malformed pid e` models a record whose field
extraction (line 211, e.g. a `translations` value of a non-dict type) raises
exception text `e` before the variable `name` is assigned, while
`p.get("product_id", "")` in the error handler still succeeds. -/
inductive PRecord where
  | good (g : GoodRec)
  | malformed (pid : String) (e : String)
  deriving DecidableEq

/-- View of a well-formed record. -/
def toRec (g : GoodRec) : PRecord := .good g

/-- One spreadsheet data row: product id, name, HTML (or error marker). -/
abbrev Row := String × String × String

/-- The prompt the batch builds for one record (line 217, no `image_url`). -/
def promptOf (g : GoodRec) : String :=
  build_prompt g.name g.description g.attributes g.producer ""

/-- The row appended for a well-formed record (lines 218–224): the generated
HTML on success, or `name or "Brak nazwy"` and a `Błąd:` marker when
`_call_openai` raised.  `complete` abstracts `_call_openai` as seen by the
batch: `.ok` is the returned string, `.error` the raised message. -/
def row_of (complete : String → CallResult) (g : GoodRec) : Row :=
  match complete (promptOf g) with
  | .ok html => (g.pid, g.name, html)
  | .error e => (g.pid, pyOr g.name "Brak nazwy", "Błąd: " ++ e)

/-- The progress written after record `i` of `total` (line 227):
`int(i / total * 100)`.  Python computes this in IEEE doubles; it is modelled
as the exact `⌊100·i/total⌋`, which coincides at the endpoints (`0` and
`100`) and shares the bounds and monotonicity the doubles computation has. -/
def progressOf (total i : Nat) : Nat := 100 * i / total

/-- The successive progress values for `m` records starting at index `i`. -/
def progSeq (total : Nat) : Nat → Nat → List Nat
  | _, 0 => []
  | i, m + 1 => progressOf total i :: progSeq total (i + 1) m

/-- The message of the `NameError`/`UnboundLocalError` raised by the error
handler (line 224) when it reads `name` before any assignment (text as in
CPython 3.11+; the claims depend only on the run aborting). -/
def unboundNameMsg : String :=
  "cannot access local variable 'name' where it is not associated with a value"

/-- The per-record loop (lines 209–229).  State: the current binding of the
Python local `name` (`none` = not yet assigned).  Returns the appended rows,
the progress values written, and `some e` when the error handler itself
raised (aborting the batch), else `none`.  A well-formed record always
appends a row — the handler catches a completion failure — and rebinds
`name`; a malformed record's handler reuses the previous binding of `name`,
or raises `NameError` when there is none. -/
def batchLoop (complete : String → CallResult) (total : Nat) :
    List PRecord → Nat → Option String → List Row × List Nat × Option String
  | [], _, _ => ([], [], none)
  | .good g :: rest, i, _ =>
    let t := batchLoop complete total rest (i + 1) (some g.name)
    (row_of complete g :: t.1, progressOf total i :: t.2.1, t.2.2)
  | .malformed pid e :: rest, i, nameBind =>
    match nameBind with
    | some n =>
      let t := batchLoop complete total rest (i + 1) (some n)
      ((pid, pyOr n "Brak nazwy", "Błąd: " ++ e) :: t.1,
       progressOf total i :: t.2.1, t.2.2)
    | none => ([], [], some unboundNameMsg)

/-- `[line.strip() for line in f if line.strip()]` (line 197). -/
def stripIds (fileLines : List String) : List String :=
  fileLines.filterMap fun l =>
    let s := pyStrip l
    if s = "" then none else some s

/-- Task status values written to the registry. -/
inductive TaskStatus where
  | started
  | done
  | error
  deriving DecidableEq

/-- The observable outcome of one `process_task` run: the worksheet data rows
(below the fixed header), the successive values written to the task's
`progress` field (starting with the initial `0`), the final status, the
`error` field, and the `file` field (`none` when no spreadsheet was saved). -/
structure BatchResult where
  rows : List Row
  progressTrace : List Nat
  finalStatus : TaskStatus
  errorMsg : Option String
  savedFile : Option String
  deriving DecidableEq

/-- `process_task(task_id, shop, user, password, model, file_path)`.
`model` is accepted and never used, as in the source.  `authOk` models the
Shoper auth response (a failure raises before any per-id fetch); `catalog`
models the per-identifier GET (`none` = non-200, skipped); `complete`
abstracts `_call_openai`; `fileLines` are the lines of the uploaded file.
An empty fetched-record list raises the fatal
`"Nie udało się pobrać danych produktów z Shopera"`; any raise is caught at
the end, setting status `error` without saving a file. -/
def process_task (task_id model : String) (authOk : Bool)
    (catalog : String → Option PRecord) (complete : String → CallResult)
    (fileLines : List String) : BatchResult :=
  let product_ids := stripIds fileLines
  if authOk then
    let products := product_ids.filterMap catalog
    if products.isEmpty then
      ⟨[], [0], .error, some "Nie udało się pobrać danych produktów z Shopera", none⟩
    else
      let t := batchLoop complete products.length products 1 none
      match t.2.2 with
      | none =>
        ⟨t.1, 0 :: t.2.1, .done, none,
         some ("/static/generated_" ++ task_id ++ ".xlsx")⟩
      | some e => ⟨t.1, 0 :: t.2.1, .error, some e, none⟩
  else ⟨[], [0], .error, some "Błąd logowania do Shopera", none⟩

/-! ## Auxiliary predicates and concrete fixtures -/

/-- Whether a network event, if it is a request attempt, carries the given
configured model name. -/
def eventModelIs (cfgModel : String) : NetEvent → Bool
  | .attempt b => b.model == cfgModel
  | .sleep _ => true

/-- Fixture: a well-formed product record. -/
def recA : GoodRec :=
  ⟨"101", "Klocki konstrukcyjne", "Zestaw 500 elementów", "7",
   [⟨some "kolor", some "czerwony"⟩]⟩

/-- Fixture: a well-formed record with an empty name. -/
def recB : GoodRec := ⟨"102", "", "", "", []⟩

/-- Fixture: a catalog oracle resolving `"101"` and `"102"` only. -/
def catalogAB : String → Option PRecord := fun s =>
  if s == "101" then some (toRec recA)
  else if s == "102" then some (toRec recB)
  else none

/-- Fixture: a catalog oracle resolving `"101"` to a well-formed record and
`"999"` to one whose field extraction raises. -/
def catalogMix : String → Option PRecord := fun s =>
  if s == "101" then some (toRec recA)
  else if s == "999" then
    some (PRecord.malformed "999" "AttributeError: 'str' object has no attribute 'get'")
  else none

/-- Fixture: a completion client that always raises. -/
def completeFail : String → CallResult := fun _ => .error "timeout"

/-- Fixture: a completion client that always succeeds. -/
def completeOk : String → CallResult := fun _ => .ok "<div>opis</div>"

/-! ### Helper lemmas for the fence handling -/

theorem isPrefixOf_append_self (l₁ l₂ : List Char) : l₁.isPrefixOf (l₁ ++ l₂) = true := by
  induction l₁ with
  | nil => simp [List.isPrefixOf]
  | cons c rest ih => simp [List.isPrefixOf, ih]

theorem dropWhile_eq_self_of_all (p : Char → Bool) (l : List Char)
    (h : ∀ c ∈ l, p c = false) : l.dropWhile p = l := by
  cases l with
  | nil => rfl
  | cons c rest => simp [List.dropWhile_cons, h c (by simp)]

theorem removeHtmlAux_no_occ (fuel : Nat) (s : List Char) (h : htmlOccurs s = false) :
    removeHtmlAux fuel s = s := by
  induction fuel generalizing s with
  | zero => rfl
  | succ fuel ih =>
    cases s with
    | nil => rfl
    | cons c rest =>
      simp only [htmlOccurs, Bool.or_eq_false_iff] at h
      simp [removeHtmlAux, h.1, ih rest h.2]

theorem removeHtmlL_no_occ (s : List Char) (h : htmlOccurs s = false) :
    removeHtmlL s = s :=
  removeHtmlAux_no_occ _ s h

theorem removeHtmlAux_succ_html (fuel : Nat) (body : List Char) :
    removeHtmlAux (fuel + 1) ('h' :: 't' :: 'm' :: 'l' :: body) = removeHtmlAux fuel body := by
  have hpre : htmlPat.isPrefixOf ('h' :: 't' :: 'm' :: 'l' :: body) = true := by
    simp [htmlPat, List.isPrefixOf]
  simp [removeHtmlAux, hpre]

theorem removeHtmlL_html_append (body : List Char) (h : htmlOccurs body = false) :
    removeHtmlL (htmlPat ++ body) = body := by
  show removeHtmlAux (htmlPat ++ body).length (htmlPat ++ body) = body
  have hlen : (htmlPat ++ body).length = body.length + 4 := by
    simp [htmlPat]
  rw [hlen]
  show removeHtmlAux (body.length + 3 + 1) ('h' :: 't' :: 'm' :: 'l' :: body) = body
  rw [removeHtmlAux_succ_html]
  exact removeHtmlAux_no_occ _ body h

theorem stripTicksL_fenced_tag (body : List Char) (hTick : ∀ c ∈ body, isTick c = false) :
    stripTicksL ("```html".data ++ body ++ "```".data) = htmlPat ++ body := by
  have hdrop : ("```html".data ++ body ++ "```".data).dropWhile isTick
      = htmlPat ++ (body ++ "```".data) := by
    show List.dropWhile isTick
        ('`' :: '`' :: '`' :: 'h' :: 't' :: 'm' :: 'l' :: (body ++ "```".data))
      = 'h' :: 't' :: 'm' :: 'l' :: (body ++ "```".data)
    simp [List.dropWhile_cons, isTick]
  rw [stripTicksL, hdrop, rstripWith]
  have hrev : (htmlPat ++ (body ++ "```".data)).reverse
      = '`' :: '`' :: '`' :: (body.reverse ++ ['l', 'm', 't', 'h']) := by
    simp [htmlPat]
  rw [hrev]
  have hall : ∀ c ∈ body.reverse ++ ['l', 'm', 't', 'h'], isTick c = false := by
    intro c hc
    rcases List.mem_append.mp hc with hc | hc
    · exact hTick c (List.mem_reverse.mp hc)
    · fin_cases hc <;> rfl
  have : List.dropWhile isTick
      ('`' :: '`' :: '`' :: (body.reverse ++ ['l', 'm', 't', 'h']))
      = body.reverse ++ ['l', 'm', 't', 'h'] := by
    simp [List.dropWhile_cons, isTick, dropWhile_eq_self_of_all _ _ hall]
  rw [this]
  simp [htmlPat]

theorem stripTicksL_fenced_plain (body : List Char) (hTick : ∀ c ∈ body, isTick c = false) :
    stripTicksL ("```".data ++ body ++ "```".data) = body := by
  cases body with
  | nil => rfl
  | cons b bs =>
    have hb : isTick b = false := hTick b (by simp)
    have hbs : ∀ c ∈ bs, isTick c = false := fun c hc => hTick c (by simp [hc])
    have ht : isTick '`' = true := rfl
    have hdrop : ("```".data ++ (b :: bs) ++ "```".data).dropWhile isTick
        = b :: (bs ++ "```".data) := by
      show List.dropWhile isTick ('`' :: '`' :: '`' :: b :: (bs ++ "```".data))
        = b :: (bs ++ "```".data)
      simp [List.dropWhile_cons, ht, hb]
    rw [stripTicksL, hdrop, rstripWith]
    have hrev : (b :: (bs ++ "```".data)).reverse
        = '`' :: '`' :: '`' :: (bs.reverse ++ [b]) := by
      simp
    rw [hrev]
    have hall : ∀ c ∈ bs.reverse ++ [b], isTick c = false := by
      intro c hc
      rcases List.mem_append.mp hc with hc | hc
      · exact hbs c (List.mem_reverse.mp hc)
      · simp at hc; subst hc; exact hb
    have : List.dropWhile isTick ('`' :: '`' :: '`' :: (bs.reverse ++ [b]))
        = bs.reverse ++ [b] := by
      simp [List.dropWhile_cons, isTick, dropWhile_eq_self_of_all _ _ hall]
    rw [this]
    simp


/-! ### Helper lemmas for the batch loop -/

theorem batchLoop_goods (complete : String → CallResult) (total : Nat)
    (gs : List GoodRec) (i : Nat) (b : Option String) :
    batchLoop complete total (gs.map toRec) i b
      = (gs.map (row_of complete), progSeq total i gs.length, none) := by
  induction gs generalizing i b with
  | nil => simp [batchLoop, progSeq]
  | cons g rest ih => simp [batchLoop, toRec, progSeq, ih]

theorem batchLoop_shape (complete : String → CallResult) (total : Nat)
    (rs : List PRecord) (i : Nat) (b : Option String) :
    ∃ m, m ≤ rs.length ∧
      (batchLoop complete total rs i b).2.1 = progSeq total i m ∧
      (batchLoop complete total rs i b).1.length = m ∧
      ((batchLoop complete total rs i b).2.2 = none → m = rs.length) := by
  induction rs generalizing i b with
  | nil => exact ⟨0, by simp, by simp [batchLoop, progSeq], by simp [batchLoop], fun _ => rfl⟩
  | cons r rest ih =>
    cases r with
    | good g =>
      obtain ⟨m, hm, h1, h2, h3⟩ := ih (i + 1) (some g.name)
      refine ⟨m + 1, by simpa using hm, ?_, ?_, ?_⟩
      · simp [batchLoop, progSeq, h1]
      · simp [batchLoop, h2]
      · intro hab
        simp only [batchLoop] at hab
        simp [h3 hab]
    | malformed pid e =>
      cases b with
      | some n =>
        obtain ⟨m, hm, h1, h2, h3⟩ := ih (i + 1) (some n)
        refine ⟨m + 1, by simpa using hm, ?_, ?_, ?_⟩
        · simp [batchLoop, progSeq, h1]
        · simp [batchLoop, h2]
        · intro hab
          simp only [batchLoop] at hab
          simp [h3 hab]
      | none =>
        refine ⟨0, by simp, by simp [batchLoop, progSeq], by simp [batchLoop], ?_⟩
        intro hab
        simp [batchLoop] at hab

theorem process_task_goods (task_id model : String)
    (catalog : String → Option PRecord) (complete : String → CallResult)
    (fileLines : List String) (gs : List GoodRec)
    (hres : (stripIds fileLines).filterMap catalog = gs.map toRec)
    (hne : gs ≠ []) :
    process_task task_id model true catalog complete fileLines
      = ⟨gs.map (row_of complete), 0 :: progSeq gs.length 1 gs.length, .done, none,
         some ("/static/generated_" ++ task_id ++ ".xlsx")⟩ := by
  cases gs with
  | nil => exact absurd rfl hne
  | cons g rest =>
    simp only [process_task, hres, if_true]
    have hempty : ((g :: rest).map toRec).isEmpty = false := by simp [toRec]
    rw [hempty]
    have hlen : ((g :: rest).map toRec).length = (g :: rest).length := List.length_map _ _
    rw [hlen, batchLoop_goods]
    simp

/-! ### Progress-sequence lemmas -/

theorem progressOf_mono (total i j : Nat) (h : i ≤ j) :
    progressOf total i ≤ progressOf total j :=
  Nat.div_le_div_right (Nat.mul_le_mul_left 100 h)

theorem progressOf_le_100 (total i : Nat) (h : i ≤ total) :
    progressOf total i ≤ 100 := by
  rcases Nat.eq_zero_or_pos total with h0 | h0
  · simp [progressOf, h0]
  · calc 100 * i / total ≤ 100 * total / total :=
          Nat.div_le_div_right (Nat.mul_le_mul_left 100 h)
    _ = 100 := Nat.mul_div_cancel 100 h0

theorem progressOf_total_self (total : Nat) (h : 0 < total) :
    progressOf total total = 100 := by
  simpa [progressOf] using Nat.mul_div_cancel 100 h

theorem mem_progSeq (total : Nat) (m i v : Nat) (hv : v ∈ progSeq total i m) :
    ∃ j, i ≤ j ∧ j < i + m ∧ v = progressOf total j := by
  induction m generalizing i with
  | zero => simp [progSeq] at hv
  | succ m ih =>
    rcases (by simpa [progSeq] using hv : v = progressOf total i ∨ v ∈ progSeq total (i + 1) m)
        with h | h
    · exact ⟨i, le_refl i, by omega, h⟩
    · obtain ⟨j, hj1, hj2, hj3⟩ := ih (i + 1) h
      exact ⟨j, by omega, by omega, hj3⟩

theorem progSeq_chain (total : Nat) (m i : Nat) :
    List.Chain' (fun a b => a ≤ b) (progSeq total i m) := by
  induction m generalizing i with
  | zero => simp [progSeq]
  | succ m ih =>
    cases m with
    | zero => simp [progSeq]
    | succ m' =>
      rw [progSeq, progSeq, List.chain'_cons]
      exact ⟨progressOf_mono total i (i + 1) (by omega),
        by rw [← progSeq]; exact ih (i + 1)⟩

theorem progSeq_getLast (total : Nat) (m i : Nat) :
    (progSeq total i (m + 1)).getLast? = some (progressOf total (i + m)) := by
  induction m generalizing i with
  | zero => simp [progSeq]
  | succ m ih =>
    rw [progSeq, progSeq, List.getLast?_cons_cons, ← progSeq, ih (i + 1),
      show i + 1 + m = i + (m + 1) from by omega]

/-! ## Claim C1 — code-fence post-processing -/

/-- C1, counterexample: on the fenced response `"```html\n<p>html</p>\n```"`
the post-processing also deletes the occurrence of `"html"` inside the body
(`replace("html", "")` acts on the whole text), so the rest of the response
text is not left unchanged: removing only the fence markers and the language
tag would give `"<p>html</p>"`, but the code yields `"<p></p>"`. -/
theorem postProcess_alters_html_in_body :
    postProcess "```html\n<p>html</p>\n```" = "<p></p>" ∧
    spec_strip_fence "```html\n<p>html</p>\n```" = "<p>html</p>" ∧
    postProcess "```html\n<p>html</p>\n```" ≠ spec_strip_fence "```html\n<p>html</p>\n```" :=
  ⟨by decide, by decide, by decide⟩

/-- C1, amended: for a successful response consisting of a code fence (with
or without the `html` language tag) around a body that contains no backtick
character and no occurrence of the substring `"html"`, the post-processing
returns the body trimmed of surrounding whitespace.  (In general the step
strips all boundary backticks and deletes every occurrence of `"html"`
anywhere in the text, so a body containing backticks or `"html"` is altered
as well.) -/
theorem postProcess_fenced_clean_body (body : List Char)
    (hTick : ∀ c ∈ body, isTick c = false) (hHtml : htmlOccurs body = false) :
    postProcess (String.mk ("```html".data ++ body ++ "```".data))
        = String.mk (pyStripL body) ∧
    postProcess (String.mk ("```".data ++ body ++ "```".data))
        = String.mk (pyStripL body) := by
  constructor
  · have hcond : "```".data.isPrefixOf ("```html".data ++ body ++ "```".data) = true := by
      rw [show "```html".data ++ body ++ "```".data
          = "```".data ++ ("html".data ++ (body ++ "```".data)) from rfl]
      exact isPrefixOf_append_self _ _
    show String.mk (postProcessL ("```html".data ++ body ++ "```".data))
        = String.mk (pyStripL body)
    unfold postProcessL
    rw [if_pos hcond, stripTicksL_fenced_tag body hTick]
    rw [show htmlPat ++ body = "html".data ++ body from rfl] at *
    rw [show "html".data = htmlPat from rfl, removeHtmlL_html_append body hHtml]
  · have hcond : "```".data.isPrefixOf ("```".data ++ body ++ "```".data) = true := by
      rw [show "```".data ++ body ++ "```".data
          = "```".data ++ (body ++ "```".data) from rfl]
      exact isPrefixOf_append_self _ _
    show String.mk (postProcessL ("```".data ++ body ++ "```".data))
        = String.mk (pyStripL body)
    unfold postProcessL
    rw [if_pos hcond, stripTicksL_fenced_plain body hTick, removeHtmlL_no_occ body hHtml]

/-- C1 witness: the amended statement evaluated on a concrete fenced
response with a clean body. -/
theorem postProcess_fenced_clean_body_witness :
    postProcess (String.mk ("```html".data ++ "\n<p>Zabawka</p>\n".data ++ "```".data))
        = String.mk (pyStripL "\n<p>Zabawka</p>\n".data) ∧
    String.mk (pyStripL "\n<p>Zabawka</p>\n".data) = "<p>Zabawka</p>" :=
  ⟨(postProcess_fenced_clean_body "\n<p>Zabawka</p>\n".data (by decide) (by decide)).1,
   by decide⟩

/-! ## Claims C2, C8 — completion client retry behaviour -/

theorem runAttempts_fail_step (cfgModel prompt : String) (oracle : Nat → AttemptOutcome)
    (a : Nat) (rest : List Nat) (h : isSuccess (oracle a) = false) :
    runAttempts cfgModel prompt oracle (a :: rest)
      = ((runAttempts cfgModel prompt oracle rest).1,
         .attempt (mkChatBody cfgModel prompt) :: .sleep RETRY_DELAY ::
           (runAttempts cfgModel prompt oracle rest).2) := by
  cases ho : oracle a with
  | exn m => simp [runAttempts, ho]
  | response code content =>
    rw [ho] at h
    simp only [isSuccess] at h
    simp [runAttempts, ho, h]

/-- C2: when the provider credential is present but every attempt fails (a
non-200 status or a raised request), `_call_openai` makes exactly three
request attempts, sleeping the fixed 2-second delay after each failed
attempt (hence between any two consecutive attempts), and then raises the
explicit "no response from OpenAI after 3 attempts" error. -/
theorem call_openai_exhausts_retries (apiKey cfgModel prompt : String)
    (oracle : Nat → AttemptOutcome) (hkey : apiKey ≠ "")
    (hfail : ∀ n, isSuccess (oracle n) = false) :
    call_openai apiKey cfgModel oracle prompt =
      (.error "Nie udało się uzyskać odpowiedzi z OpenAI po 3 próbach",
       [.attempt (mkChatBody cfgModel prompt), .sleep RETRY_DELAY,
        .attempt (mkChatBody cfgModel prompt), .sleep RETRY_DELAY,
        .attempt (mkChatBody cfgModel prompt), .sleep RETRY_DELAY]) := by
  have hk : ¬((apiKey == "") = true) := by
    simp only [beq_iff_eq]
    exact hkey
  unfold call_openai
  rw [if_neg hk, show List.range MAX_RETRIES = [0, 1, 2] from rfl]
  rw [runAttempts_fail_step cfgModel prompt oracle 0 _ (hfail 0),
    runAttempts_fail_step cfgModel prompt oracle 1 _ (hfail 1),
    runAttempts_fail_step cfgModel prompt oracle 2 _ (hfail 2)]
  simp [runAttempts]

/-- C2 witness: a concrete run where every attempt returns status 500. -/
theorem call_openai_exhausts_retries_witness :
    call_openai "sk-test" "gpt-4o-mini" (fun _ => .response 500 "") "prompt" =
      (.error "Nie udało się uzyskać odpowiedzi z OpenAI po 3 próbach",
       [.attempt (mkChatBody "gpt-4o-mini" "prompt"), .sleep 2,
        .attempt (mkChatBody "gpt-4o-mini" "prompt"), .sleep 2,
        .attempt (mkChatBody "gpt-4o-mini" "prompt"), .sleep 2]) :=
  call_openai_exhausts_retries "sk-test" "gpt-4o-mini" "prompt"
    (fun _ => .response 500 "") (by decide) (fun _ => rfl)

/-- C8: with the provider credential absent (the stripped `OPENAI_API_KEY`
is empty), `_call_openai` raises the configuration error immediately: no
network attempt is made (the event trace is empty) and no retry happens,
whatever the network oracle and the prompt. -/
theorem call_openai_missing_key (cfgModel prompt : String)
    (oracle : Nat → AttemptOutcome) :
    call_openai "" cfgModel oracle prompt
      = (.error "Brak OPENAI_API_KEY w środowisku", []) := by
  simp [call_openai]

/-! ## Claim C6 — attribute serialization -/

theorem spec_has_nonempty_false_of_filter_nil (rest : List Attr)
    (hfe : rest.filter (fun x => pyTruthy x.value) = []) :
    spec_has_nonempty rest = false := by
  rw [spec_has_nonempty, List.any_eq_false]
  intro x hx
  exact List.filter_eq_nil_iff.mp hfe x hx

/-- C6: for every attribute list, the serialized attribute string used in
the prompt equals the specified form: attributes with an empty (or absent)
value are excluded, and attributes with a non-empty value appear as
`"name: value"` pairs joined by `", "` in input order. -/
theorem attrs_str_eq_spec (l : List Attr) : attrs_str l = spec_attrs_str l := by
  induction l with
  | nil => rfl
  | cons a rest ih =>
    rw [spec_attrs_str]
    by_cases h : pyTruthy a.value = true
    · rw [if_pos h]
      rcases hfe : rest.filter (fun x => pyTruthy x.value) with _ | ⟨b, bs⟩
      · have hne : spec_has_nonempty rest = false :=
          spec_has_nonempty_false_of_filter_nil rest hfe
        rw [hne]
        simp only [Bool.false_eq_true, if_false]
        rw [attrs_str, List.filter_cons, if_pos h, hfe]
        rfl
      · have hne : spec_has_nonempty rest = true := by
          rw [spec_has_nonempty, List.any_eq_true]
          have hb : b ∈ rest.filter (fun x => pyTruthy x.value) := by rw [hfe]; simp
          exact ⟨b, (List.mem_filter.mp hb).1, (List.mem_filter.mp hb).2⟩
        rw [hne, if_pos rfl, ← ih]
        rw [attrs_str, attrs_str, List.filter_cons, if_pos h, hfe]
        rfl
    · have hb : pyTruthy a.value = false := by simpa using h
      rw [hb]
      simp only [Bool.false_eq_true, if_false]
      rw [← ih, attrs_str, attrs_str, List.filter_cons, hb]
      simp only [Bool.false_eq_true, if_false]

/-! ## Claim C3 — per-record failures do not abort the batch -/

/-- C3: over a batch of N fetched well-formed records, every record yields
exactly one output row, in order: a record whose completion call raises gets
an error-marker row (`"Błąd: "` plus the exception text, with
`name or "Brak nazwy"` in the name cell), while every successfully processed
record gets its generated content; the run completes all N rows with status
`done` — a single record's failure never terminates the batch early. -/
theorem batch_isolates_record_failures (task_id model : String)
    (catalog : String → Option PRecord) (complete : String → CallResult)
    (fileLines : List String) (gs : List GoodRec)
    (hres : (stripIds fileLines).filterMap catalog = gs.map toRec)
    (hne : gs ≠ []) :
    (process_task task_id model true catalog complete fileLines).rows.length
        = gs.length ∧
    (process_task task_id model true catalog complete fileLines).finalStatus
        = .done ∧
    (∀ (j : Nat) (g : GoodRec) (e : String),
      gs[j]? = some g → complete (promptOf g) = .error e →
      (process_task task_id model true catalog complete fileLines).rows[j]?
        = some (g.pid, pyOr g.name "Brak nazwy", "Błąd: " ++ e)) ∧
    (∀ (j : Nat) (g : GoodRec) (h : String),
      gs[j]? = some g → complete (promptOf g) = .ok h →
      (process_task task_id model true catalog complete fileLines).rows[j]?
        = some (g.pid, g.name, h)) := by
  rw [process_task_goods task_id model catalog complete fileLines gs hres hne]
  refine ⟨by simp, rfl, ?_, ?_⟩
  · intro j g e hg hc
    show (gs.map (row_of complete))[j]? = _
    rw [List.getElem?_map, hg]
    simp [row_of, hc]
  · intro j g h hg hc
    show (gs.map (row_of complete))[j]? = _
    rw [List.getElem?_map, hg]
    simp [row_of, hc]

/-- C3 witness: a concrete batch of two records where every completion call
raises; the second record's row carries the error marker (its name is empty,
so the name cell reads `Brak nazwy`). -/
theorem batch_isolates_record_failures_witness :
    (process_task "t3" "gpt-4o-mini" true catalogAB completeFail
        ["101", "102"]).rows[1]?
      = some ("102", pyOr "" "Brak nazwy", "Błąd: " ++ "timeout") :=
  (batch_isolates_record_failures "t3" "gpt-4o-mini" catalogAB completeFail
      ["101", "102"] [recA, recB] rfl (by simp)).2.2.1
    1 recB "timeout" rfl rfl

/-! ## Claim C4 — only resolved identifiers produce rows, in order -/

/-- C4: when the catalog client resolves only the records in `gs` (a list
shorter than the requested identifier list but non-empty), the output
spreadsheet contains exactly `gs.length` data rows, one per resolved record
in exactly the order the catalog returned them; unresolved identifiers leave
no row. -/
theorem batch_rows_are_resolved_records (task_id model : String)
    (catalog : String → Option PRecord) (complete : String → CallResult)
    (fileLines : List String) (gs : List GoodRec)
    (hres : (stripIds fileLines).filterMap catalog = gs.map toRec)
    (hM : 0 < gs.length) (hMN : gs.length < (stripIds fileLines).length) :
    (process_task task_id model true catalog complete fileLines).rows
        = gs.map (row_of complete) ∧
    (process_task task_id model true catalog complete fileLines).rows.length
        = gs.length ∧
    (process_task task_id model true catalog complete fileLines).finalStatus
        = .done ∧
    (process_task task_id model true catalog complete fileLines).savedFile
        = some ("/static/generated_" ++ task_id ++ ".xlsx") := by
  have hne : gs ≠ [] := by
    intro hnil
    rw [hnil] at hM
    simp at hM
  rw [process_task_goods task_id model catalog complete fileLines gs hres hne]
  exact ⟨rfl, by simp, rfl, rfl⟩

/-- C4 witness: three requested identifiers of which only `"101"` resolves;
the output has exactly that one row. -/
theorem batch_rows_are_resolved_records_witness :
    (process_task "t4" "gpt-4o-mini" true catalogAB completeOk
        ["101", "777", "888"]).rows
      = [recA].map (row_of completeOk) ∧
    (process_task "t4" "gpt-4o-mini" true catalogAB completeOk
        ["101", "777", "888"]).rows.length = 1 :=
  ⟨(batch_rows_are_resolved_records "t4" "gpt-4o-mini" catalogAB completeOk
      ["101", "777", "888"] [recA] rfl (by decide) (by decide)).1,
   (batch_rows_are_resolved_records "t4" "gpt-4o-mini" catalogAB completeOk
      ["101", "777", "888"] [recA] rfl (by decide) (by decide)).2.1⟩

/-! ## Claim C5 — empty input or zero fetched records is fatal -/

/-- C5: if the stripped identifier list is empty (empty or whitespace-only
upload) or the catalog fetch returns zero records, the async batch run sets
the task status to `error` with the fatal "could not fetch product data"
text, appends no data rows, and saves no output file. -/
theorem batch_fatal_on_no_records (task_id model : String)
    (catalog : String → Option PRecord) (complete : String → CallResult)
    (fileLines : List String)
    (hempty : stripIds fileLines = [] ∨
      (stripIds fileLines).filterMap catalog = []) :
    (process_task task_id model true catalog complete fileLines).finalStatus
        = .error ∧
    (process_task task_id model true catalog complete fileLines).errorMsg
        = some "Nie udało się pobrać danych produktów z Shopera" ∧
    (process_task task_id model true catalog complete fileLines).savedFile
        = none ∧
    (process_task task_id model true catalog complete fileLines).rows = [] := by
  have hnil : (stripIds fileLines).filterMap catalog = [] := by
    rcases hempty with h | h
    · rw [h]; rfl
    · exact h
  have hrun : process_task task_id model true catalog complete fileLines
      = ⟨[], [0], .error, some "Nie udało się pobrać danych produktów z Shopera",
         none⟩ := by
    simp [process_task, hnil]
  rw [hrun]
  exact ⟨rfl, rfl, rfl, rfl⟩

/-- C5 witness: a whitespace-only identifier file. -/
theorem batch_fatal_on_no_records_witness :
    (process_task "t5" "gpt-4o-mini" true catalogAB completeOk
        ["  ", "", "\t"]).finalStatus = .error ∧
    (process_task "t5" "gpt-4o-mini" true catalogAB completeOk
        ["  ", "", "\t"]).savedFile = none :=
  ⟨(batch_fatal_on_no_records "t5" "gpt-4o-mini" catalogAB completeOk
      ["  ", "", "\t"] (Or.inl (by decide))).1,
   (batch_fatal_on_no_records "t5" "gpt-4o-mini" catalogAB completeOk
      ["  ", "", "\t"] (Or.inl (by decide))).2.2.1⟩

/-! ## Claim C7 — progress invariant -/

theorem process_task_eq_done (task_id model : String)
    (catalog : String → Option PRecord) (complete : String → CallResult)
    (fileLines : List String)
    (hprod : ((stripIds fileLines).filterMap catalog).isEmpty = false)
    (hab : (batchLoop complete ((stripIds fileLines).filterMap catalog).length
        ((stripIds fileLines).filterMap catalog) 1 none).2.2 = none) :
    process_task task_id model true catalog complete fileLines
      = ⟨(batchLoop complete ((stripIds fileLines).filterMap catalog).length
            ((stripIds fileLines).filterMap catalog) 1 none).1,
         0 :: (batchLoop complete ((stripIds fileLines).filterMap catalog).length
            ((stripIds fileLines).filterMap catalog) 1 none).2.1,
         .done, none, some ("/static/generated_" ++ task_id ++ ".xlsx")⟩ := by
  simp [process_task, hprod, hab]

theorem process_task_eq_abort (task_id model : String)
    (catalog : String → Option PRecord) (complete : String → CallResult)
    (fileLines : List String) (e : String)
    (hprod : ((stripIds fileLines).filterMap catalog).isEmpty = false)
    (hab : (batchLoop complete ((stripIds fileLines).filterMap catalog).length
        ((stripIds fileLines).filterMap catalog) 1 none).2.2 = some e) :
    process_task task_id model true catalog complete fileLines
      = ⟨(batchLoop complete ((stripIds fileLines).filterMap catalog).length
            ((stripIds fileLines).filterMap catalog) 1 none).1,
         0 :: (batchLoop complete ((stripIds fileLines).filterMap catalog).length
            ((stripIds fileLines).filterMap catalog) 1 none).2.1,
         .error, some e, none⟩ := by
  simp [process_task, hprod, hab]

theorem process_task_trace_shape (task_id model : String) (authOk : Bool)
    (catalog : String → Option PRecord) (complete : String → CallResult)
    (fileLines : List String) :
    ∃ total m, m ≤ total ∧
      (process_task task_id model authOk catalog complete fileLines).progressTrace
        = 0 :: progSeq total 1 m ∧
      (process_task task_id model authOk catalog complete fileLines).rows.length
        = m ∧
      ((process_task task_id model authOk catalog complete fileLines).finalStatus
          = .done → m = total ∧ 0 < total) := by
  by_cases ha : authOk = true
  case neg =>
    have hb : authOk = false := by simpa using ha
    refine ⟨0, 0, le_refl 0, ?_, ?_, ?_⟩ <;> simp [process_task, hb, progSeq]
  case pos =>
    subst ha
    by_cases hprod : ((stripIds fileLines).filterMap catalog).isEmpty = true
    · refine ⟨0, 0, le_refl 0, ?_, ?_, ?_⟩ <;> simp [process_task, hprod, progSeq]
    · have hprod' : ((stripIds fileLines).filterMap catalog).isEmpty = false := by
        simpa using hprod
      have hpos : 0 < ((stripIds fileLines).filterMap catalog).length := by
        rcases hl : (stripIds fileLines).filterMap catalog with _ | ⟨r, rs⟩
        · rw [hl] at hprod'; simp at hprod'
        · simp
      obtain ⟨m, hm, h1, h2, h3⟩ := batchLoop_shape complete
        ((stripIds fileLines).filterMap catalog).length
        ((stripIds fileLines).filterMap catalog) 1 none
      cases hab : (batchLoop complete ((stripIds fileLines).filterMap catalog).length
          ((stripIds fileLines).filterMap catalog) 1 none).2.2 with
      | none =>
        rw [process_task_eq_done task_id model catalog complete fileLines hprod' hab]
        exact ⟨((stripIds fileLines).filterMap catalog).length, m, hm,
          by rw [h1], h2, fun _ => ⟨h3 hab, hpos⟩⟩
      | some e =>
        rw [process_task_eq_abort task_id model catalog complete fileLines e hprod' hab]
        refine ⟨((stripIds fileLines).filterMap catalog).length, m, hm,
          by rw [h1], h2, ?_⟩
        intro hcontra
        simp at hcontra

/-- C7: over the lifetime of one async batch task, every value written to
the task's `progress` field lies in `[0, 100]` (it is a `Nat`, so the lower
bound is inherent), the written sequence is monotonically non-decreasing,
and when the final status is `done` the sequence is exactly the initial `0`
followed by `⌊100·i/N⌋` for `i = 1..N` over the `N` processed records —
in particular it ends at `100`. -/
theorem task_progress_monotone (task_id model : String) (authOk : Bool)
    (catalog : String → Option PRecord) (complete : String → CallResult)
    (fileLines : List String) :
    (∀ v ∈ (process_task task_id model authOk catalog complete
        fileLines).progressTrace, v ≤ 100) ∧
    List.Chain' (fun a b => a ≤ b)
      (process_task task_id model authOk catalog complete fileLines).progressTrace ∧
    ((process_task task_id model authOk catalog complete fileLines).finalStatus
        = .done →
      (process_task task_id model authOk catalog complete fileLines).progressTrace
        = 0 :: progSeq
            (process_task task_id model authOk catalog complete fileLines).rows.length
            1
            (process_task task_id model authOk catalog complete
              fileLines).rows.length) ∧
    ((process_task task_id model authOk catalog complete fileLines).finalStatus
        = .done →
      (process_task task_id model authOk catalog complete
          fileLines).progressTrace.getLast? = some 100) := by
  obtain ⟨total, m, hm, htrace, hrows, hdone⟩ :=
    process_task_trace_shape task_id model authOk catalog complete fileLines
  refine ⟨?_, ?_, ?_, ?_⟩
  · intro v hv
    rw [htrace] at hv
    rcases List.mem_cons.mp hv with hv | hv
    · omega
    · obtain ⟨j, hj1, hj2, hj3⟩ := mem_progSeq total m 1 v hv
      have hj : j ≤ total := by omega
      calc v = progressOf total j := hj3
        _ ≤ 100 := progressOf_le_100 total j hj
  · rw [htrace]
    cases m with
    | zero => simp [progSeq]
    | succ m' =>
      rw [progSeq, List.chain'_cons]
      exact ⟨Nat.zero_le _, by rw [← progSeq]; exact progSeq_chain total (m' + 1) 1⟩
  · intro hd
    obtain ⟨hmt, hpos⟩ := hdone hd
    rw [htrace, hrows, hmt]
  · intro hd
    obtain ⟨hmt, hpos⟩ := hdone hd
    rw [htrace, hmt]
    obtain ⟨t', rfl⟩ : ∃ t', total = t' + 1 := ⟨total - 1, by omega⟩
    rw [progSeq, List.getLast?_cons_cons, ← progSeq, progSeq_getLast,
      show 1 + t' = t' + 1 from by omega,
      progressOf_total_self (t' + 1) (by omega)]

/-- C7 witness: a concrete two-record batch that finishes `done`; its
progress trace is `[0, 50, 100]` and ends at `100`. -/
theorem task_progress_monotone_witness :
    (process_task "t7" "gpt-4o-mini" true catalogAB completeOk
        ["101", "102"]).progressTrace.getLast? = some 100 ∧
    (process_task "t7" "gpt-4o-mini" true catalogAB completeOk
        ["101", "102"]).progressTrace = [0, 50, 100] :=
  ⟨(task_progress_monotone "t7" "gpt-4o-mini" true catalogAB completeOk
      ["101", "102"]).2.2.2 (by rfl),
   by decide⟩

/-! ## Claim C9 — the per-request model field is dead -/

theorem runAttempts_model_const (cfgModel prompt : String)
    (oracle : Nat → AttemptOutcome) (l : List Nat) :
    ((runAttempts cfgModel prompt oracle l).2.all (eventModelIs cfgModel)) = true := by
  induction l with
  | nil => rfl
  | cons a rest ih =>
    cases ho : oracle a with
    | exn m => simp [runAttempts, ho, eventModelIs, mkChatBody, ih]
    | response code content =>
      by_cases hc : (code == 200) = true
      · simp [runAttempts, ho, hc, eventModelIs, mkChatBody]
      · have hc' : (code == 200) = false := by simpa using hc
        simp [runAttempts, ho, hc', eventModelIs, mkChatBody, ih]

/-- C9: the `model` form field has no effect — two batch runs whose inputs
differ only in the model value are identical in every observable (rows,
progress, status, file), because `process_task` never reads its `model`
parameter; and every completion request `_call_openai` issues carries the
process-wide configured model, never a per-request one. -/
theorem model_field_has_no_effect :
    (∀ (task_id m₁ m₂ : String) (authOk : Bool)
        (catalog : String → Option PRecord) (complete : String → CallResult)
        (fileLines : List String),
      process_task task_id m₁ authOk catalog complete fileLines
        = process_task task_id m₂ authOk catalog complete fileLines) ∧
    (∀ (apiKey cfgModel prompt : String) (oracle : Nat → AttemptOutcome),
      ((call_openai apiKey cfgModel oracle prompt).2.all
        (eventModelIs cfgModel)) = true) := by
  constructor
  · intro task_id m₁ m₂ authOk catalog complete fileLines
    rfl
  · intro apiKey cfgModel prompt oracle
    unfold call_openai
    by_cases hk : (apiKey == "") = true
    · rw [if_pos hk]
      rfl
    · rw [if_neg hk]
      exact runAttempts_model_const cfgModel prompt oracle (List.range MAX_RETRIES)

/-! ## Claim C10 — the error handler is not total in the failing record -/

/-- C10: the batch error handler writes whatever the Python local `name`
last held.  If a record's field extraction raises before `name` is assigned
and a previous record bound it, the error row carries the previous record's
name and the batch continues to completion; if the very first record fails
before `name` is assigned, the handler itself raises on the unbound
variable, the batch aborts with status `error`, no row is recorded and no
file is saved. -/
theorem stale_name_in_error_row (task_id model : String)
    (catalog : String → Option PRecord) (complete : String → CallResult)
    (fileLines : List String) :
    (∀ (g : GoodRec) (pid e : String),
      (stripIds fileLines).filterMap catalog = [toRec g, PRecord.malformed pid e] →
      (process_task task_id model true catalog complete fileLines).finalStatus
          = .done ∧
      (process_task task_id model true catalog complete fileLines).rows
        = [row_of complete g, (pid, pyOr g.name "Brak nazwy", "Błąd: " ++ e)]) ∧
    (∀ (pid e : String) (rest : List PRecord),
      (stripIds fileLines).filterMap catalog = PRecord.malformed pid e :: rest →
      (process_task task_id model true catalog complete fileLines).finalStatus
          = .error ∧
      (process_task task_id model true catalog complete fileLines).rows = [] ∧
      (process_task task_id model true catalog complete fileLines).savedFile
          = none ∧
      (process_task task_id model true catalog complete fileLines).errorMsg
        = some unboundNameMsg) := by
  constructor
  · intro g pid e hres
    have hrun : process_task task_id model true catalog complete fileLines
        = ⟨[row_of complete g, (pid, pyOr g.name "Brak nazwy", "Błąd: " ++ e)],
           [0, progressOf 2 1, progressOf 2 2], .done, none,
           some ("/static/generated_" ++ task_id ++ ".xlsx")⟩ := by
      simp [process_task, hres, batchLoop, toRec]
    rw [hrun]
    exact ⟨rfl, rfl⟩
  · intro pid e rest hres
    have hrun : process_task task_id model true catalog complete fileLines
        = ⟨[], [0], .error, some unboundNameMsg, none⟩ := by
      simp [process_task, hres, batchLoop]
    rw [hrun]
    exact ⟨rfl, rfl, rfl, rfl⟩

/-- C10 witness: the two-record scenario writes the first record's name into
the second record's error row; the single-malformed-record scenario aborts
with status `error` and no rows. -/
theorem stale_name_in_error_row_witness :
    (process_task "t10" "gpt-4o-mini" true catalogMix completeOk
        ["101", "999"]).rows
      = [row_of completeOk recA,
         ("999", pyOr recA.name "Brak nazwy",
          "Błąd: " ++ "AttributeError: 'str' object has no attribute 'get'")] ∧
    (process_task "t10" "gpt-4o-mini" true catalogMix completeOk
        ["999"]).finalStatus = .error ∧
    (process_task "t10" "gpt-4o-mini" true catalogMix completeOk
        ["999"]).rows = [] :=
  ⟨((stale_name_in_error_row "t10" "gpt-4o-mini" catalogMix completeOk
      ["101", "999"]).1 recA "999"
      "AttributeError: 'str' object has no attribute 'get'" rfl).2,
   ((stale_name_in_error_row "t10" "gpt-4o-mini" catalogMix completeOk
      ["999"]).2 "999"
      "AttributeError: 'str' object has no attribute 'get'" [] rfl).1,
   ((stale_name_in_error_row "t10" "gpt-4o-mini" catalogMix completeOk
      ["999"]).2 "999"
      "AttributeError: 'str' object has no attribute 'get'" [] rfl).2.1⟩

end Mamyzabawki
